import Mathlib

/-!
Verification of the grid-based geographic coverage / service-gap analysis
(`CoverageGapAnalyzer`) described by this repository's specification, together
with the inline formulas of the dashboard pages (sea-level-rise risk labelling
and community-voice engagement scoring).

The repository source under `src/` contains only Streamlit UI glue; the
analyzer itself is the spec's consolidation of the pages' inline logic, so its
operations are modelled from the spec's own words (each such definition is
marked `Modelled from the spec:`).  Coordinates and weights are modelled as
rationals (the code's floating-point numbers, with exact arithmetic); the
recency-decay formula, which needs a transcendental exponential, is modelled
over the reals.
-/

namespace Coverage

/-- Modelled from the spec: `BoundingRegion` (§3) — `min_lat, max_lat, min_lon,
max_lon` defining the rectangular area to analyze. -/
structure BoundingRegion where
  min_lat : ℚ
  max_lat : ℚ
  min_lon : ℚ
  max_lon : ℚ
deriving DecidableEq, Repr

/-- Modelled from the spec: `GeoPoint` (§3) — a location with latitude and
longitude in degrees and an optional weight defaulting to 1. -/
structure GeoPoint where
  latitude : ℚ
  longitude : ℚ
  weight : ℚ := 1
deriving DecidableEq, Repr

/-- Modelled from the spec: `GridCell` (§3) — identified by integer
`(row, col)` indices, holding its geometric center, a point count, an
aggregate weight and a gap flag. -/
structure GridCell where
  row : ℕ
  col : ℕ
  center_lat : ℚ
  center_lon : ℚ
  point_count : ℕ
  aggregate_weight : ℚ
  is_gap : Bool
deriving DecidableEq, Repr

/-- Modelled from the spec: the error taxonomy (§7) — the single
`InvalidParameterError` raised on invalid parameters. -/
inductive AnalyzerError where
  | invalidParameter : AnalyzerError
deriving DecidableEq, Repr

/-- Modelled from the spec: `rows = ceil((max_lat - min_lat) / cellSizeDegrees)`
(§4.1, `buildGrid`). -/
def rowsOf (region : BoundingRegion) (cellSizeDegrees : ℚ) : ℕ :=
  (⌈(region.max_lat - region.min_lat) / cellSizeDegrees⌉).toNat

/-- Modelled from the spec: `cols = ceil((max_lon - min_lon) / cellSizeDegrees)`
(§4.1, `buildGrid`). -/
def colsOf (region : BoundingRegion) (cellSizeDegrees : ℚ) : ℕ :=
  (⌈(region.max_lon - region.min_lon) / cellSizeDegrees⌉).toNat

/-- Modelled from the spec: the fresh grid cell at indices `(i, j)` with its
geometric center (§4.1, `buildGrid`; §3, `GridCell`). -/
def mkCell (region : BoundingRegion) (cellSizeDegrees : ℚ) (i j : ℕ) : GridCell :=
  { row := i
    col := j
    center_lat := region.min_lat + ((i : ℚ) + 1/2) * cellSizeDegrees
    center_lon := region.min_lon + ((j : ℚ) + 1/2) * cellSizeDegrees
    point_count := 0
    aggregate_weight := 0
    is_gap := false }

/-- Modelled from the spec: `buildGrid` (§4.1) — fails with
`InvalidParameterError` when `cellSizeDegrees ≤ 0` or when the region
degenerates to zero width/height (`min == max` on either axis); otherwise
produces `rows × cols` cells in row-major order, each with its geometric
center. -/
def buildGrid (region : BoundingRegion) (cellSizeDegrees : ℚ) :
    Except AnalyzerError (List GridCell) :=
  if cellSizeDegrees ≤ 0 then .error .invalidParameter
  else if region.min_lat = region.max_lat ∨ region.min_lon = region.max_lon then
    .error .invalidParameter
  else
    let rows := rowsOf region cellSizeDegrees
    let cols := colsOf region cellSizeDegrees
    .ok ((List.range (rows * cols)).map fun k =>
      mkCell region cellSizeDegrees (k / cols) (k % cols))

/-- Modelled from the spec: the in-bounds test of `assignPoints` (§4.1, §7, §8)
— a point outside the region bounds is excluded (counted, not an error). -/
def inBounds (region : BoundingRegion) (p : GeoPoint) : Bool :=
  decide (region.min_lat ≤ p.latitude ∧ p.latitude ≤ region.max_lat ∧
    region.min_lon ≤ p.longitude ∧ p.longitude ≤ region.max_lon)

/-- Modelled from the spec: the owning cell of an in-bounds point (§4.1,
`assignPoints`) — `row = floor((lat - min_lat) / cellSizeDegrees)`,
`col = floor((lon - min_lon) / cellSizeDegrees)`, clamped to `[0, rows-1]` /
`[0, cols-1]`. -/
def owningCell (region : BoundingRegion) (cellSizeDegrees : ℚ) (p : GeoPoint) :
    ℕ × ℕ :=
  (min (⌊(p.latitude - region.min_lat) / cellSizeDegrees⌋).toNat
      (rowsOf region cellSizeDegrees - 1),
   min (⌊(p.longitude - region.min_lon) / cellSizeDegrees⌋).toNat
      (colsOf region cellSizeDegrees - 1))

/-- Modelled from the spec: the state of `assignPoints` — the cell sequence
plus the surfaced `points_assigned` / `points_excluded` counters (§4.1, §8). -/
structure AssignResult where
  cells : List GridCell
  points_assigned : ℕ
  points_excluded : ℕ
deriving DecidableEq, Repr

/-- Modelled from the spec: incrementing the owning cell's `point_count` by 1
and its `aggregate_weight` by the point's weight, as a functional update of the
cell sequence (§4.1, `assignPoints`). -/
def addPointToCells (cells : List GridCell) (rc : ℕ × ℕ) (w : ℚ) :
    List GridCell :=
  cells.map fun cell =>
    if cell.row = rc.1 ∧ cell.col = rc.2 then
      { cell with
        point_count := cell.point_count + 1
        aggregate_weight := cell.aggregate_weight + w }
    else cell

/-- Modelled from the spec: processing one point of `assignPoints` (§4.1) — an
in-bounds point is assigned to its owning cell; an out-of-bounds point is
excluded and counted, with no error raised. -/
def assignStep (region : BoundingRegion) (cellSizeDegrees : ℚ)
    (s : AssignResult) (p : GeoPoint) : AssignResult :=
  if inBounds region p then
    { cells := addPointToCells s.cells (owningCell region cellSizeDegrees p) p.weight
      points_assigned := s.points_assigned + 1
      points_excluded := s.points_excluded }
  else
    { s with points_excluded := s.points_excluded + 1 }

/-- Modelled from the spec: `assignPoints` (§4.1) — folds the points in input
order over the fresh cells, so summation order is the order of the input
sequence. -/
def assignPoints (cells : List GridCell) (points : List GeoPoint)
    (region : BoundingRegion) (cellSizeDegrees : ℚ) : AssignResult :=
  points.foldl (assignStep region cellSizeDegrees) ⟨cells, 0, 0⟩

/-- Modelled from the spec: `CoverageResult` (§3) — the ordered cell sequence
plus the summary counts. -/
structure CoverageResult where
  cells : List GridCell
  total_cells : ℕ
  gap_cells : ℕ
  covered_cells : ℕ
  gap_fraction : ℚ
deriving DecidableEq, Repr

/-- Modelled from the spec: `classifyGaps` (§4.1) — a cell
`is_gap = (point_count < minCountForCoverage)`; produces the result with exact
integer counts and `gap_fraction = gap_cells / total_cells`. -/
def classifyGaps (cells : List GridCell) (minCountForCoverage : ℕ) :
    CoverageResult :=
  let classified := cells.map fun cell =>
    { cell with is_gap := decide (cell.point_count < minCountForCoverage) }
  let g := classified.countP (fun cell => cell.is_gap)
  { cells := classified
    total_cells := classified.length
    gap_cells := g
    covered_cells := classified.countP (fun cell => !cell.is_gap)
    gap_fraction := (g : ℚ) / (classified.length : ℚ) }

/-- Modelled from the spec: the ranking order of `rankCellsByWeight` (§4.1) —
descending by `aggregate_weight`, ties broken by `(row, col)` ascending. -/
def CellRank (a b : GridCell) : Prop :=
  b.aggregate_weight < a.aggregate_weight ∨
    (a.aggregate_weight = b.aggregate_weight ∧
      (a.row < b.row ∨ (a.row = b.row ∧ a.col ≤ b.col)))

instance (a b : GridCell) : Decidable (CellRank a b) := by
  unfold CellRank; infer_instance

/-- Boolean form of the ranking order, used as the comparator of the sort. -/
def cellLE (a b : GridCell) : Bool := decide (CellRank a b)

/-- Modelled from the spec: `rankCellsByWeight` (§4.1) — fails with
`InvalidParameterError` on `topN ≤ 0`, otherwise returns the `topN` cells
sorted by the ranking order. -/
def rankCellsByWeight (result : CoverageResult) (topN : ℤ) :
    Except AnalyzerError (List GridCell) :=
  if topN ≤ 0 then .error .invalidParameter
  else .ok ((result.cells.mergeSort cellLE).take topN.toNat)

/-- Modelled from the spec: the full analysis pipeline (§4.1, §8) — build the
grid, assign the points in input order, classify the gaps; returns the
`CoverageResult` together with the `points_assigned` / `points_excluded`
counters. -/
def runPipeline (region : BoundingRegion) (cellSizeDegrees : ℚ)
    (minCountForCoverage : ℕ) (points : List GeoPoint) :
    Except AnalyzerError (CoverageResult × ℕ × ℕ) :=
  (buildGrid region cellSizeDegrees).map fun grid =>
    let s := assignPoints grid points region cellSizeDegrees
    (classifyGaps s.cells minCountForCoverage, s.points_assigned, s.points_excluded)

/-- Modelled from the spec: the recency-decayed weight (§4.1, `assignPoints`)
— `decayedWeight = weight * exp(-(now - timestamp) / halfLifeDays)`, using
calendar days. -/
noncomputable def decayedWeight (weight now timestamp halfLifeDays : ℝ) : ℝ :=
  weight * Real.exp (-((now - timestamp) / halfLifeDays))

/-- The example region of the spec's §8 scenario:
`(min_lat=33.70, max_lat=33.85, min_lon=-118.25, max_lon=-118.05)`. -/
def exampleRegion : BoundingRegion :=
  { min_lat := 33.70, max_lat := 33.85, min_lon := -118.25, max_lon := -118.05 }

/-- A region whose latitude extent (0.101°) is not an exact multiple of the
cell size 0.05°, exposing the last row's center. -/
def raggedRegion : BoundingRegion :=
  { min_lat := 0, max_lat := 101/1000, min_lon := 0, max_lon := 1/20 }

/-- Big-step relation of one `assignPoints` run: the points are consumed one
at a time, in the order of the input sequence (the spec's fixed summation
order). -/
inductive AssignRel (region : BoundingRegion) (cellSizeDegrees : ℚ) :
    List GeoPoint → AssignResult → AssignResult → Prop where
  | nil : ∀ s, AssignRel region cellSizeDegrees [] s s
  | cons : ∀ p ps s s',
      AssignRel region cellSizeDegrees ps (assignStep region cellSizeDegrees s p) s' →
      AssignRel region cellSizeDegrees (p :: ps) s s'

/-- Big-step relation of one full pipeline run (build the grid, consume the
points in input order, classify the gaps). -/
inductive PipelineRun (region : BoundingRegion) (cellSizeDegrees : ℚ)
    (minCountForCoverage : ℕ) (points : List GeoPoint) :
    Except AnalyzerError (CoverageResult × ℕ × ℕ) → Prop where
  | failed : ∀ e, buildGrid region cellSizeDegrees = .error e →
      PipelineRun region cellSizeDegrees minCountForCoverage points (.error e)
  | succeeded : ∀ grid s, buildGrid region cellSizeDegrees = .ok grid →
      AssignRel region cellSizeDegrees points ⟨grid, 0, 0⟩ s →
      PipelineRun region cellSizeDegrees minCountForCoverage points
        (.ok (classifyGaps s.cells minCountForCoverage,
          s.points_assigned, s.points_excluded))

end Coverage

namespace SeaLevel

/-- From `src/pages/4_🌊_Sea_Level_Rise.py` line 250:
`facility_elevation = props.get('elevation_ft', 999)` — a feature with no
`elevation_ft` property defaults to elevation 999. -/
def facility_elevation (elevation_ft : Option ℚ) : ℚ := elevation_ft.getD 999

/-- From `src/pages/4_🌊_Sea_Level_Rise.py` lines 251-252:
`scenario_level = scenario_data['rise_ft'] * 3.28`;
`at_risk = facility_elevation <= scenario_level`. -/
def at_risk (elevation_ft : Option ℚ) (rise_ft : ℚ) : Bool :=
  decide (facility_elevation elevation_ft ≤ rise_ft * 3.28)

/-- The `rise_ft` values of the page's four scenarios
(`src/pages/4_🌊_Sea_Level_Rise.py`, scenarios dict: 1ft_2030, 3ft_2050,
5ft_2070, 7ft_2100). -/
def scenarioRises : List ℚ := [1, 3, 5, 7]

end SeaLevel

namespace CommunityVoice

/-- From `src/pages/3_💬_Community_Voice.py` line 444:
`filtered_df['engagement'] = filtered_df['score'] + (filtered_df['num_comments'] * 2)`. -/
def engagement (score num_comments : ℤ) : ℤ := score + num_comments * 2

/-- The interaction counts of one post row, as read by `engagement_row` in
`src/pages/4_Community_Voice_Long_Beach.py` (missing counts default to 0). -/
structure PostRow where
  source : String
  score : ℤ := 0
  num_comments : ℤ := 0
  like_count : ℤ := 0
  reply_count : ℤ := 0
  retweet_count : ℤ := 0
deriving DecidableEq, Repr

/-- Python's ASCII `str.lower()` applied characterwise. -/
def lowerStr (s : String) : String := ⟨s.data.map Char.toLower⟩

/-- Python's substring containment (`needle in hay`) on character lists. -/
def containsSub (hay needle : List Char) : Bool :=
  match hay with
  | [] => needle.isEmpty
  | c :: t => needle.isPrefixOf (c :: t) || containsSub t needle

/-- Python's substring containment (`needle in hay`) on strings. -/
def strContains (hay needle : String) : Bool := containsSub hay.data needle.data

/-- From `src/pages/4_Community_Voice_Long_Beach.py` lines 314-320:
source-aware engagement — `score + 2*num_comments` when the lowercased source
contains `"reddit"`, `like_count + 2*reply_count + 3*retweet_count` when it
contains `"twitter"` or `"x"`, else 0. -/
def engagement_row (r : PostRow) : ℤ :=
  let src := lowerStr r.source
  if strContains src "reddit" then r.score + 2 * r.num_comments
  else if strContains src "twitter" || strContains src "x" then
    r.like_count + 2 * r.reply_count + 3 * r.retweet_count
  else 0

end CommunityVoice

namespace Coverage

lemma countP_not_add (p : GridCell → Bool) (l : List GridCell) :
    l.countP p + l.countP (fun a => !p a) = l.length := by
  rw [List.length_eq_countP_add_countP p l]
  congr 1
  apply List.countP_congr
  intro a _
  simp

/-- C1: every cell produced by `classifyGaps` is classified as exactly one of
gap/covered (`is_gap` is true exactly when `point_count < minCountForCoverage`
and false exactly otherwise), `gap_cells + covered_cells = total_cells`, and
`gap_fraction` equals `gap_cells / total_cells` exactly. -/
theorem classifyGaps_partition (cells : List GridCell) (minCount : ℕ) :
    (∀ cell ∈ (classifyGaps cells minCount).cells,
      (cell.is_gap = true ↔ cell.point_count < minCount) ∧
      (cell.is_gap = false ↔ ¬ cell.point_count < minCount)) ∧
    (classifyGaps cells minCount).gap_cells + (classifyGaps cells minCount).covered_cells
      = (classifyGaps cells minCount).total_cells ∧
    (classifyGaps cells minCount).gap_fraction
      = ((classifyGaps cells minCount).gap_cells : ℚ)
        / ((classifyGaps cells minCount).total_cells : ℚ) := by
  refine ⟨?_, ?_, rfl⟩
  · intro cell hcell
    simp only [classifyGaps, List.mem_map] at hcell
    obtain ⟨c0, _, rfl⟩ := hcell
    constructor
    · simp
    · simp
  · simp only [classifyGaps]
    exact countP_not_add _ _

/-- Application instance for `classifyGaps_partition` at a concrete input. -/
theorem classifyGaps_partition_witness :
    (∀ cell ∈ (classifyGaps [] 1).cells,
      (cell.is_gap = true ↔ cell.point_count < 1) ∧
      (cell.is_gap = false ↔ ¬ cell.point_count < 1)) ∧
    (classifyGaps [] 1).gap_cells + (classifyGaps [] 1).covered_cells
      = (classifyGaps [] 1).total_cells ∧
    (classifyGaps [] 1).gap_fraction
      = ((classifyGaps [] 1).gap_cells : ℚ) / ((classifyGaps [] 1).total_cells : ℚ) :=
  classifyGaps_partition [] 1

lemma assign_foldl_conservation (region : BoundingRegion) (c : ℚ) :
    ∀ (points : List GeoPoint) (s : AssignResult),
      (points.foldl (assignStep region c) s).points_assigned +
        (points.foldl (assignStep region c) s).points_excluded =
      s.points_assigned + s.points_excluded + points.length := by
  intro points
  induction points with
  | nil => intro s; simp
  | cons p ps ih =>
    intro s
    rw [List.foldl_cons, ih]
    unfold assignStep
    split_ifs <;> simp <;> omega

lemma inBounds_far_north :
    inBounds exampleRegion { latitude := 90, longitude := 0 } = false := by
  simp only [inBounds, exampleRegion, decide_eq_false_iff_not]
  push_neg
  intro _ h
  exfalso
  norm_num at h

/-- C4: `assignPoints` raises no error on out-of-bounds points (it is a total
function into `AssignResult`): for every input point sequence,
`points_assigned + points_excluded = len(points)`, and a point at `(90, 0)`
against the example region (which does not contain latitude 90) is excluded
with `points_excluded = 1` and nothing assigned. -/
theorem assignPoints_conservation (cells : List GridCell) (points : List GeoPoint)
    (region : BoundingRegion) (c : ℚ) :
    (assignPoints cells points region c).points_assigned +
      (assignPoints cells points region c).points_excluded = points.length ∧
    (assignPoints cells [{ latitude := 90, longitude := 0 }] exampleRegion (1/20)).points_excluded
      = 1 ∧
    (assignPoints cells [{ latitude := 90, longitude := 0 }] exampleRegion (1/20)).points_assigned
      = 0 := by
  refine ⟨?_, ?_, ?_⟩
  · unfold assignPoints
    rw [assign_foldl_conservation]
    simp
  · simp [assignPoints, assignStep, inBounds_far_north]
  · simp [assignPoints, assignStep, inBounds_far_north]

/-- Application instance for `assignPoints_conservation` at a concrete input. -/
theorem assignPoints_conservation_witness :
    (assignPoints [] [] exampleRegion (1/20)).points_assigned +
      (assignPoints [] [] exampleRegion (1/20)).points_excluded = ([] : List GeoPoint).length ∧
    (assignPoints [] [{ latitude := 90, longitude := 0 }] exampleRegion (1/20)).points_excluded
      = 1 ∧
    (assignPoints [] [{ latitude := 90, longitude := 0 }] exampleRegion (1/20)).points_assigned
      = 0 :=
  assignPoints_conservation [] [] exampleRegion (1/20)

lemma clamp_floor_pos {x : ℚ} (hx : 0 < x) :
    min (⌊x⌋).toNat ((⌈x⌉).toNat - 1) = (⌈x⌉).toNat - 1 := by
  have hf : (0 : ℤ) ≤ ⌊x⌋ := Int.floor_nonneg.mpr (le_of_lt hx)
  have hcp : (0 : ℤ) < ⌈x⌉ := Int.ceil_pos.mpr hx
  have h1 : ⌈x⌉ ≤ ⌊x⌋ + 1 := Int.ceil_le_floor_add_one x
  omega

lemma rowsOf_pos (region : BoundingRegion) (c : ℚ)
    (hlat : region.min_lat < region.max_lat) (hc : 0 < c) : 0 < rowsOf region c := by
  unfold rowsOf
  have h : (0 : ℤ) < ⌈(region.max_lat - region.min_lat) / c⌉ :=
    Int.ceil_pos.mpr (div_pos (by linarith) hc)
  omega

lemma colsOf_pos (region : BoundingRegion) (c : ℚ)
    (hlon : region.min_lon < region.max_lon) (hc : 0 < c) : 0 < colsOf region c := by
  unfold colsOf
  have h : (0 : ℤ) < ⌈(region.max_lon - region.min_lon) / c⌉ :=
    Int.ceil_pos.mpr (div_pos (by linarith) hc)
  omega

/-- C3: every in-bounds point's owning cell is the clamped floor index, and the
point exactly at `(max_lat, max_lon)` is in bounds (not excluded) and assigned
to the last cell `(rows-1, cols-1)`, which is in range. -/
theorem boundary_point_last_cell (region : BoundingRegion) (c : ℚ)
    (hlat : region.min_lat < region.max_lat) (hlon : region.min_lon < region.max_lon)
    (hc : 0 < c) :
    inBounds region { latitude := region.max_lat, longitude := region.max_lon } = true ∧
    owningCell region c { latitude := region.max_lat, longitude := region.max_lon }
      = (rowsOf region c - 1, colsOf region c - 1) ∧
    rowsOf region c - 1 < rowsOf region c ∧
    colsOf region c - 1 < colsOf region c ∧
    (∀ q : GeoPoint, owningCell region c q =
      (min (⌊(q.latitude - region.min_lat) / c⌋).toNat (rowsOf region c - 1),
       min (⌊(q.longitude - region.min_lon) / c⌋).toNat (colsOf region c - 1))) := by
  have hx : 0 < (region.max_lat - region.min_lat) / c := div_pos (by linarith) hc
  have hy : 0 < (region.max_lon - region.min_lon) / c := div_pos (by linarith) hc
  refine ⟨?_, ?_, ?_, ?_, fun q => rfl⟩
  · simp only [inBounds, decide_eq_true_eq]
    exact ⟨le_of_lt hlat, le_refl _, le_of_lt hlon, le_refl _⟩
  · unfold owningCell rowsOf colsOf
    exact Prod.ext (clamp_floor_pos hx) (clamp_floor_pos hy)
  · have := rowsOf_pos region c hlat hc
    omega
  · have := colsOf_pos region c hlon hc
    omega

/-- Witness for `boundary_point_last_cell` at the spec's example region. -/
theorem boundary_point_last_cell_witness :
    exampleRegion.min_lat < exampleRegion.max_lat ∧
    exampleRegion.min_lon < exampleRegion.max_lon ∧ (0 : ℚ) < 1/20 ∧
    (inBounds exampleRegion
        { latitude := exampleRegion.max_lat, longitude := exampleRegion.max_lon } = true ∧
      owningCell exampleRegion (1/20)
          { latitude := exampleRegion.max_lat, longitude := exampleRegion.max_lon }
        = (rowsOf exampleRegion (1/20) - 1, colsOf exampleRegion (1/20) - 1) ∧
      rowsOf exampleRegion (1/20) - 1 < rowsOf exampleRegion (1/20) ∧
      colsOf exampleRegion (1/20) - 1 < colsOf exampleRegion (1/20) ∧
      (∀ q : GeoPoint, owningCell exampleRegion (1/20) q =
        (min (⌊(q.latitude - exampleRegion.min_lat) / (1/20)⌋).toNat
          (rowsOf exampleRegion (1/20) - 1),
         min (⌊(q.longitude - exampleRegion.min_lon) / (1/20)⌋).toNat
          (colsOf exampleRegion (1/20) - 1)))) :=
  ⟨by norm_num [exampleRegion], by norm_num [exampleRegion], by norm_num,
   boundary_point_last_cell exampleRegion (1/20) (by norm_num [exampleRegion])
     (by norm_num [exampleRegion]) (by norm_num)⟩

lemma buildGrid_ok (region : BoundingRegion) (c : ℚ) (hc : 0 < c)
    (hlat : region.min_lat ≠ region.max_lat) (hlon : region.min_lon ≠ region.max_lon) :
    buildGrid region c = .ok ((List.range (rowsOf region c * colsOf region c)).map
      fun k => mkCell region c (k / colsOf region c) (k % colsOf region c)) := by
  unfold buildGrid
  rw [if_neg (not_le.mpr hc), if_neg (not_or.mpr ⟨hlat, hlon⟩)]

lemma center_coord_bounds (m c : ℚ) (hc : 0 < c) {i n : ℕ} (hi : i < n) :
    m < m + ((i : ℚ) + 1/2) * c ∧ m + ((i : ℚ) + 1/2) * c ≤ m + (n : ℚ) * c := by
  constructor
  · have h0 : (0 : ℚ) < ((i : ℚ) + 1/2) * c := by positivity
    linarith
  · have h1 : ((i : ℚ) + 1) ≤ (n : ℚ) := by exact_mod_cast Nat.succ_le_of_lt hi
    nlinarith

lemma rowsOf_example : rowsOf exampleRegion (1/20) = 3 := by
  unfold rowsOf exampleRegion
  rw [show ⌈((33.85 : ℚ) - 33.70) / (1/20)⌉ = 3 from by
    rw [Int.ceil_eq_iff]; norm_num]
  rfl

lemma colsOf_example : colsOf exampleRegion (1/20) = 4 := by
  unfold colsOf exampleRegion
  rw [show ⌈((-118.05 : ℚ) - (-118.25)) / (1/20)⌉ = 4 from by
    rw [Int.ceil_eq_iff]; norm_num]
  rfl

/-- C2 as amended: for a valid region and positive cell size, `buildGrid`
returns exactly `rows × cols` cells in row-major order with
`rows = ceil((max_lat-min_lat)/cellSize)`, `cols = ceil((max_lon-min_lon)/cellSize)`;
every cell's center lies within the grid's extent
`[min, min + rows·cellSize] × [min, min + cols·cellSize]` (and hence within the
region's bounds whenever the region's height and width are exact multiples of
the cell size); the example region with cell size 0.05 yields `rows = 3`,
`cols = 4`, i.e. 12 cells. -/
theorem buildGrid_complete (region : BoundingRegion) (c : ℚ)
    (hlat : region.min_lat < region.max_lat) (hlon : region.min_lon < region.max_lon)
    (hc : 0 < c) :
    ∃ cells, buildGrid region c = .ok cells ∧
      cells.length = rowsOf region c * colsOf region c ∧
      (∀ i j, i < rowsOf region c → j < colsOf region c →
        cells[i * colsOf region c + j]? = some (mkCell region c i j)) ∧
      (∀ cell ∈ cells,
        region.min_lat < cell.center_lat ∧
        cell.center_lat ≤ region.min_lat + (rowsOf region c : ℚ) * c ∧
        region.min_lon < cell.center_lon ∧
        cell.center_lon ≤ region.min_lon + (colsOf region c : ℚ) * c) ∧
      ((region.max_lat - region.min_lat = (rowsOf region c : ℚ) * c ∧
        region.max_lon - region.min_lon = (colsOf region c : ℚ) * c) →
        ∀ cell ∈ cells,
          cell.center_lat ≤ region.max_lat ∧ cell.center_lon ≤ region.max_lon) ∧
      rowsOf exampleRegion (1/20) = 3 ∧ colsOf exampleRegion (1/20) = 4 := by
  have hcols : 0 < colsOf region c := colsOf_pos region c hlon hc
  have hbounds : ∀ cell ∈ (List.range (rowsOf region c * colsOf region c)).map
      (fun k => mkCell region c (k / colsOf region c) (k % colsOf region c)),
      region.min_lat < cell.center_lat ∧
      cell.center_lat ≤ region.min_lat + (rowsOf region c : ℚ) * c ∧
      region.min_lon < cell.center_lon ∧
      cell.center_lon ≤ region.min_lon + (colsOf region c : ℚ) * c := by
    intro cell hcell
    simp only [List.mem_map, List.mem_range] at hcell
    obtain ⟨k, hk, rfl⟩ := hcell
    have hrow : k / colsOf region c < rowsOf region c :=
      (Nat.div_lt_iff_lt_mul hcols).mpr hk
    have hcol : k % colsOf region c < colsOf region c := Nat.mod_lt _ hcols
    have hb1 := center_coord_bounds region.min_lat c hc hrow
    have hb2 := center_coord_bounds region.min_lon c hc hcol
    exact ⟨hb1.1, hb1.2, hb2.1, hb2.2⟩
  refine ⟨_, buildGrid_ok region c hc (ne_of_lt hlat) (ne_of_lt hlon),
    ?_, ?_, hbounds, ?_, rowsOf_example, colsOf_example⟩
  · simp
  · intro i j hi hj
    have hk : i * colsOf region c + j < rowsOf region c * colsOf region c := by
      calc i * colsOf region c + j < i * colsOf region c + colsOf region c := by omega
        _ = (i + 1) * colsOf region c := by ring
        _ ≤ rowsOf region c * colsOf region c :=
            Nat.mul_le_mul_right _ (Nat.succ_le_of_lt hi)
    rw [List.getElem?_map, List.getElem?_range hk]
    have hcomm : i * colsOf region c + j = j + i * colsOf region c := by omega
    simp only [Option.map_some']
    rw [hcomm, Nat.add_mul_div_right j i hcols, Nat.div_eq_of_lt hj,
      Nat.add_mul_mod_self_right, Nat.mod_eq_of_lt hj]
    simp
  · intro hmul cell hcell
    obtain ⟨hb1, hb2, hb3, hb4⟩ := hbounds cell hcell
    constructor
    · calc cell.center_lat ≤ region.min_lat + (rowsOf region c : ℚ) * c := hb2
        _ = region.max_lat := by linarith [hmul.1]
    · calc cell.center_lon ≤ region.min_lon + (colsOf region c : ℚ) * c := hb4
        _ = region.max_lon := by linarith [hmul.2]

/-- Witness for `buildGrid_complete` at the spec's example region. -/
theorem buildGrid_complete_witness :
    exampleRegion.min_lat < exampleRegion.max_lat ∧
    exampleRegion.min_lon < exampleRegion.max_lon ∧ (0 : ℚ) < 1/20 ∧
    (∃ cells, buildGrid exampleRegion (1/20) = .ok cells ∧
      cells.length = rowsOf exampleRegion (1/20) * colsOf exampleRegion (1/20) ∧
      (∀ i j, i < rowsOf exampleRegion (1/20) → j < colsOf exampleRegion (1/20) →
        cells[i * colsOf exampleRegion (1/20) + j]?
          = some (mkCell exampleRegion (1/20) i j)) ∧
      (∀ cell ∈ cells,
        exampleRegion.min_lat < cell.center_lat ∧
        cell.center_lat ≤ exampleRegion.min_lat + (rowsOf exampleRegion (1/20) : ℚ) * (1/20) ∧
        exampleRegion.min_lon < cell.center_lon ∧
        cell.center_lon ≤ exampleRegion.min_lon + (colsOf exampleRegion (1/20) : ℚ) * (1/20)) ∧
      ((exampleRegion.max_lat - exampleRegion.min_lat
          = (rowsOf exampleRegion (1/20) : ℚ) * (1/20) ∧
        exampleRegion.max_lon - exampleRegion.min_lon
          = (colsOf exampleRegion (1/20) : ℚ) * (1/20)) →
        ∀ cell ∈ cells,
          cell.center_lat ≤ exampleRegion.max_lat ∧
          cell.center_lon ≤ exampleRegion.max_lon) ∧
      rowsOf exampleRegion (1/20) = 3 ∧ colsOf exampleRegion (1/20) = 4) :=
  ⟨by norm_num [exampleRegion], by norm_num [exampleRegion], by norm_num,
   buildGrid_complete exampleRegion (1/20) (by norm_num [exampleRegion])
     (by norm_num [exampleRegion]) (by norm_num)⟩

/-- C2 counterexample: the claim's "every cell's center lies within the
region's bounds" fails when the region's extent is not an exact multiple of
the cell size — for the region `[0, 0.101] × [0, 0.05]` with cell size 0.05,
`buildGrid` succeeds and the last row's cell has center latitude 0.125, which
exceeds `max_lat = 0.101`. -/
theorem buildGrid_center_outside :
    ∃ cells, buildGrid raggedRegion (1/20) = .ok cells ∧
      ∃ cell ∈ cells, raggedRegion.max_lat < cell.center_lat := by
  have hr : rowsOf raggedRegion (1/20) = 3 := by
    unfold rowsOf raggedRegion
    rw [show ⌈((101/1000 : ℚ) - 0) / (1/20)⌉ = 3 from by
      rw [Int.ceil_eq_iff]; norm_num]
    rfl
  have hco : colsOf raggedRegion (1/20) = 1 := by
    unfold colsOf raggedRegion
    rw [show ⌈((1/20 : ℚ) - 0) / (1/20)⌉ = 1 from by
      rw [Int.ceil_eq_iff]; norm_num]
    rfl
  refine ⟨_, buildGrid_ok raggedRegion (1/20) (by norm_num)
    (by norm_num [raggedRegion]) (by norm_num [raggedRegion]), ?_⟩
  refine ⟨mkCell raggedRegion (1/20) 2 0, ?_, ?_⟩
  · rw [hr, hco]
    simp only [List.mem_map, List.mem_range]
    exact ⟨2, by norm_num, rfl⟩
  · unfold mkCell raggedRegion
    norm_num

lemma cellRank_trans (a b c : GridCell) :
    cellLE a b = true → cellLE b c = true → cellLE a c = true := by
  simp only [cellLE, decide_eq_true_eq]
  unfold CellRank
  intro h1 h2
  rcases h1 with h1 | ⟨e1, t1⟩ <;> rcases h2 with h2 | ⟨e2, t2⟩
  · exact Or.inl (lt_trans h2 h1)
  · exact Or.inl (e2 ▸ h1)
  · exact Or.inl (by rw [e1]; exact h2)
  · exact Or.inr ⟨e1.trans e2, by omega⟩

lemma cellRank_total (a b : GridCell) : (cellLE a b || cellLE b a) = true := by
  simp only [cellLE, Bool.or_eq_true, decide_eq_true_eq]
  unfold CellRank
  rcases lt_trichotomy a.aggregate_weight b.aggregate_weight with h | h | h
  · exact Or.inr (Or.inl h)
  · rcases (show (a.row < b.row ∨ (a.row = b.row ∧ a.col ≤ b.col)) ∨
        (b.row < a.row ∨ (b.row = a.row ∧ b.col ≤ a.col)) by omega) with hl | hl
    · exact Or.inl (Or.inr ⟨h, hl⟩)
    · exact Or.inr (Or.inr ⟨h.symm, hl⟩)
  · exact Or.inl (Or.inl h)

/-- C6: for `topN = N > 0`, `rankCellsByWeight` returns the first `N` cells of
a sorted permutation of the result's cells (sorted descending by
`aggregate_weight` with ties broken by `(row, col)` ascending); a second call
with the same arguments returns the same sequence, and for every `M` with
`0 < M ≤ N` the `M`-result is a prefix of the `N`-result. -/
theorem rankCells_spec (result : CoverageResult) (N : ℤ) (hN : 0 < N) :
    ∃ l, rankCellsByWeight result N = .ok l ∧
      List.Pairwise (fun a b => cellLE a b = true) l ∧
      (∃ s, s.Perm result.cells ∧ List.Pairwise (fun a b => cellLE a b = true) s ∧
        l = s.take N.toNat) ∧
      (∀ l₂, rankCellsByWeight result N = .ok l₂ → l₂ = l) ∧
      (∀ M : ℤ, 0 < M → M ≤ N →
        ∃ lM, rankCellsByWeight result M = .ok lM ∧ lM <+: l) := by
  have hok : rankCellsByWeight result N
      = .ok ((result.cells.mergeSort cellLE).take N.toNat) := by
    unfold rankCellsByWeight
    rw [if_neg (not_le.mpr hN)]
  have hsort : List.Pairwise (fun a b => cellLE a b = true)
      (result.cells.mergeSort cellLE) :=
    List.sorted_mergeSort cellRank_trans cellRank_total result.cells
  refine ⟨_, hok, ?_, ⟨_, List.mergeSort_perm _ _, hsort, rfl⟩, ?_, ?_⟩
  · exact List.Pairwise.sublist (List.take_sublist _ _) hsort
  · intro l₂ h2
    rw [hok] at h2
    injection h2 with h
    exact h.symm
  · intro M hM hMN
    have hokM : rankCellsByWeight result M
        = .ok ((result.cells.mergeSort cellLE).take M.toNat) := by
      unfold rankCellsByWeight
      rw [if_neg (not_le.mpr hM)]
    refine ⟨_, hokM, ?_⟩
    have hle : M.toNat ≤ N.toNat := Int.toNat_le_toNat hMN
    have heq : (result.cells.mergeSort cellLE).take M.toNat
        = ((result.cells.mergeSort cellLE).take N.toNat).take M.toNat := by
      rw [List.take_take, min_eq_left hle]
    rw [heq]
    exact List.take_prefix _ _

/-- Witness for `rankCells_spec` at a concrete input. -/
theorem rankCells_spec_witness :
    (0 : ℤ) < 1 ∧
    (∃ l, rankCellsByWeight (classifyGaps [] 2) 1 = .ok l ∧
      List.Pairwise (fun a b => cellLE a b = true) l ∧
      (∃ s, s.Perm (classifyGaps [] 2).cells ∧
        List.Pairwise (fun a b => cellLE a b = true) s ∧ l = s.take (1 : ℤ).toNat) ∧
      (∀ l₂, rankCellsByWeight (classifyGaps [] 2) 1 = .ok l₂ → l₂ = l) ∧
      (∀ M : ℤ, 0 < M → M ≤ 1 →
        ∃ lM, rankCellsByWeight (classifyGaps [] 2) M = .ok lM ∧ lM <+: l)) :=
  ⟨by decide, rankCells_spec (classifyGaps [] 2) 1 (by decide)⟩

lemma assignRel_foldl {region : BoundingRegion} {c : ℚ} :
    ∀ {ps : List GeoPoint} {s s' : AssignResult}, AssignRel region c ps s s' →
      s' = ps.foldl (assignStep region c) s := by
  intro ps s s' h
  induction h with
  | nil s => rfl
  | cons p ps s s' _ ih =>
    rw [List.foldl_cons]
    exact ih

lemma assignRel_total (region : BoundingRegion) (c : ℚ) :
    ∀ (ps : List GeoPoint) (s : AssignResult),
      AssignRel region c ps s (ps.foldl (assignStep region c) s) := by
  intro ps
  induction ps with
  | nil => intro s; exact AssignRel.nil s
  | cons p ps ih =>
    intro s
    simp only [List.foldl_cons]
    exact AssignRel.cons p ps s _ (ih (assignStep region c s p))

lemma pipelineRun_eq (region : BoundingRegion) (c : ℚ) (m : ℕ) (ps : List GeoPoint) :
    ∀ {r}, PipelineRun region c m ps r → r = runPipeline region c m ps := by
  intro r h
  cases h with
  | failed e he =>
    unfold runPipeline
    rw [he]
    rfl
  | succeeded grid s hg ha =>
    unfold runPipeline
    rw [hg]
    rw [assignRel_foldl ha]
    rfl

lemma pipelineRun_total (region : BoundingRegion) (c : ℚ) (m : ℕ) (ps : List GeoPoint) :
    PipelineRun region c m ps (runPipeline region c m ps) := by
  cases hb : buildGrid region c with
  | error e =>
    have hr : runPipeline region c m ps = .error e := by
      unfold runPipeline
      rw [hb]
      rfl
    rw [hr]
    exact PipelineRun.failed e hb
  | ok grid =>
    have hr : runPipeline region c m ps
        = .ok (classifyGaps (assignPoints grid ps region c).cells m,
          (assignPoints grid ps region c).points_assigned,
          (assignPoints grid ps region c).points_excluded) := by
      unfold runPipeline
      rw [hb]
      rfl
    rw [hr]
    exact PipelineRun.succeeded grid _ hb (assignRel_total region c ps ⟨grid, 0, 0⟩)

/-- C8: the full pipeline (buildGrid, assignPoints in input-sequence order,
classifyGaps) is deterministic — any two runs on identical inputs produce the
same `CoverageResult` and counters, and both equal the pipeline function's
value. -/
theorem pipeline_deterministic (region : BoundingRegion) (c : ℚ) (m : ℕ)
    (points : List GeoPoint) (r1 r2 : Except AnalyzerError (CoverageResult × ℕ × ℕ))
    (h1 : PipelineRun region c m points r1) (h2 : PipelineRun region c m points r2) :
    r1 = r2 ∧ runPipeline region c m points = r1 :=
  ⟨(pipelineRun_eq region c m points h1).trans (pipelineRun_eq region c m points h2).symm,
   (pipelineRun_eq region c m points h1).symm⟩

/-- Witness for `pipeline_deterministic` at a concrete input. -/
theorem pipeline_deterministic_witness :
    PipelineRun exampleRegion (1/20) 1 [] (runPipeline exampleRegion (1/20) 1 []) ∧
    (runPipeline exampleRegion (1/20) 1 [] = runPipeline exampleRegion (1/20) 1 [] ∧
      runPipeline exampleRegion (1/20) 1 [] = runPipeline exampleRegion (1/20) 1 []) :=
  ⟨pipelineRun_total _ _ _ _,
   pipeline_deterministic _ _ _ _ _ _ (pipelineRun_total _ _ _ _)
     (pipelineRun_total _ _ _ _)⟩

/-- C7: each operation fails with `InvalidParameterError` exactly on its
invalid inputs, surfacing the error immediately in its return value:
`buildGrid` errors precisely when `cellSizeDegrees ≤ 0` or the region
degenerates (`min = max` on either axis), and `rankCellsByWeight` errors
precisely when `topN ≤ 0`. -/
theorem invalidParameter_exactly (region : BoundingRegion) (c : ℚ)
    (result : CoverageResult) (topN : ℤ) :
    (buildGrid region c = .error .invalidParameter ↔
      c ≤ 0 ∨ region.min_lat = region.max_lat ∨ region.min_lon = region.max_lon) ∧
    (rankCellsByWeight result topN = .error .invalidParameter ↔ topN ≤ 0) := by
  constructor
  · unfold buildGrid
    split_ifs with h1 h2
    · simp [h1]
    · simp [h1, h2]
    · simp [h1, h2]
  · unfold rankCellsByWeight
    split_ifs with h
    · simp [h]
    · simp [h]

/-- Application instance for `invalidParameter_exactly` at a concrete input. -/
theorem invalidParameter_exactly_witness :
    (buildGrid exampleRegion 0 = .error .invalidParameter ↔
      (0 : ℚ) ≤ 0 ∨ exampleRegion.min_lat = exampleRegion.max_lat ∨
        exampleRegion.min_lon = exampleRegion.max_lon) ∧
    (rankCellsByWeight (classifyGaps [] 1) 0 = .error .invalidParameter ↔ (0 : ℤ) ≤ 0) :=
  invalidParameter_exactly exampleRegion 0 (classifyGaps [] 1) 0

/-- C5 counterexample: with the spec's decay formula, a point whose age
`now - timestamp` equals exactly `halfLifeDays` contributes
`exp(-1) ≈ 0.3679` of its weight, not half of it: at
`weight = 1, now = 1, timestamp = 0, halfLifeDays = 1` the decayed weight is
not `1/2 * 1`. -/
theorem decayedWeight_not_half_at_halfLife :
    decayedWeight 1 1 0 1 ≠ (1/2) * 1 := by
  unfold decayedWeight
  have h2 : (2 : ℝ) < Real.exp 1 := lt_trans (by norm_num) Real.exp_one_gt_d9
  have hlt : (Real.exp 1)⁻¹ < (2 : ℝ)⁻¹ := inv_strictAnti₀ (by norm_num) h2
  rw [show ((1 : ℝ) - 0) / 1 = 1 by norm_num, Real.exp_neg]
  intro h
  have heq : (Real.exp 1)⁻¹ = 1 / 2 := by linarith
  rw [heq] at hlt
  norm_num at hlt

/-- C5 as amended: with the spec's formula
`decayedWeight = weight * exp(-(now - timestamp) / halfLifeDays)`, a point
whose age equals exactly `halfLifeDays` contributes `exp(-1)` of its original
weight (an e-folding, not a halving). -/
theorem decayedWeight_at_halfLife (w now ts hl : ℝ) (hhl : hl ≠ 0)
    (h : now - ts = hl) : decayedWeight w now ts hl = w * Real.exp (-1) := by
  unfold decayedWeight
  rw [h, div_self hhl]

/-- Witness for `decayedWeight_at_halfLife` at a concrete input. -/
theorem decayedWeight_at_halfLife_witness :
    (1 : ℝ) ≠ 0 ∧ (1 : ℝ) - 0 = 1 ∧ decayedWeight 1 1 0 1 = 1 * Real.exp (-1) :=
  ⟨by norm_num, by norm_num, decayedWeight_at_halfLife 1 1 0 1 (by norm_num) (by norm_num)⟩

end Coverage

namespace SeaLevel

/-- C9: a Point infrastructure feature is labeled AT RISK precisely when its
`elevation_ft` is at most the scenario's `rise_ft` scaled by 3.28; a feature
with no `elevation_ft` defaults to elevation 999 and is SAFE under every one
of the page's scenarios (rise 1, 3, 5, 7 ft). -/
theorem at_risk_spec (e rise : ℚ) :
    (at_risk (some e) rise = true ↔ e ≤ rise * 3.28) ∧
    facility_elevation none = 999 ∧
    (scenarioRises.all fun r => !(at_risk none r)) = true := by
  refine ⟨?_, rfl, ?_⟩
  · simp [at_risk, facility_elevation]
  · simp only [scenarioRises, at_risk, facility_elevation, List.all_cons, List.all_nil,
      Option.getD_none, Bool.and_eq_true, Bool.not_eq_true', decide_eq_false_iff_not]
    norm_num

/-- Application instance for `at_risk_spec` at a concrete input. -/
theorem at_risk_spec_witness :
    (at_risk (some 2) 1 = true ↔ (2 : ℚ) ≤ 1 * 3.28) ∧
    facility_elevation none = 999 ∧
    (scenarioRises.all fun r => !(at_risk none r)) = true :=
  at_risk_spec 2 1

end SeaLevel

namespace CommunityVoice

/-- C10: the Community Voice page's engagement is `score + 2·num_comments`
for every row, and the Long Beach page's `engagement_row` is
`score + 2·num_comments` for a source containing `"reddit"`,
`like_count + 2·reply_count + 3·retweet_count` for a source containing
`"twitter"` or `"x"`, and 0 for any other source. -/
theorem engagement_spec (score nc lk rp rt : ℤ) :
    engagement score nc = score + 2 * nc ∧
    engagement_row (PostRow.mk "Reddit" score nc lk rp rt) = score + 2 * nc ∧
    engagement_row (PostRow.mk "Twitter" score nc lk rp rt)
      = lk + 2 * rp + 3 * rt ∧
    engagement_row (PostRow.mk "X" score nc lk rp rt)
      = lk + 2 * rp + 3 * rt ∧
    engagement_row (PostRow.mk "Facebook" score nc lk rp rt) = 0 ∧
    (∀ r : PostRow, engagement_row r =
      if strContains (lowerStr r.source) "reddit" then r.score + 2 * r.num_comments
      else if strContains (lowerStr r.source) "twitter"
          || strContains (lowerStr r.source) "x" then
        r.like_count + 2 * r.reply_count + 3 * r.retweet_count
      else 0) := by
  have hr : strContains (lowerStr "Reddit") "reddit" = true := by decide
  have ht1 : strContains (lowerStr "Twitter") "reddit" = false := by decide
  have ht2 : strContains (lowerStr "Twitter") "twitter" = true := by decide
  have hx1 : strContains (lowerStr "X") "reddit" = false := by decide
  have hx2 : strContains (lowerStr "X") "twitter" = false := by decide
  have hx3 : strContains (lowerStr "X") "x" = true := by decide
  have hf1 : strContains (lowerStr "Facebook") "reddit" = false := by decide
  have hf2 : strContains (lowerStr "Facebook") "twitter" = false := by decide
  have hf3 : strContains (lowerStr "Facebook") "x" = false := by decide
  refine ⟨by unfold engagement; ring, ?_, ?_, ?_, ?_, ?_⟩
  · simp [engagement_row, hr]
  · simp [engagement_row, ht1, ht2]
  · simp [engagement_row, hx1, hx2, hx3]
  · simp [engagement_row, hf1, hf2, hf3]
  · intro r
    rfl

/-- Application instance for `engagement_spec` at a concrete input. -/
theorem engagement_spec_witness :
    engagement 1 2 = 1 + 2 * 2 ∧
    engagement_row (PostRow.mk "Reddit" 1 2 3 4 5) = 1 + 2 * 2 ∧
    engagement_row (PostRow.mk "Twitter" 1 2 3 4 5)
      = 3 + 2 * 4 + 3 * 5 ∧
    engagement_row (PostRow.mk "X" 1 2 3 4 5)
      = 3 + 2 * 4 + 3 * 5 ∧
    engagement_row (PostRow.mk "Facebook" 1 2 3 4 5) = 0 ∧
    (∀ r : PostRow, engagement_row r =
      if strContains (lowerStr r.source) "reddit" then r.score + 2 * r.num_comments
      else if strContains (lowerStr r.source) "twitter"
          || strContains (lowerStr r.source) "x" then
        r.like_count + 2 * r.reply_count + 3 * r.retweet_count
      else 0) :=
  engagement_spec 1 2 3 4 5

end CommunityVoice
